import Mathlib

/-
Shallow embedding of the NRBLOG real-time event-fanout layer.

Sources embedded here:
  - src/backend/socket/socket.js (admission middleware, connection registry,
    post rooms, the socket event handlers for newPost, newComment,
    likeUnlikePost, likeUnlikeComment, deleteComment, typing, disconnect);
  - src/backend/controllers/postController.js (createPost's fanout step,
    likeUnlikePost, banPost, unbanPost).

Document identifiers (Mongo ObjectIds) are modelled as strings.  The document
store is a pair of in-memory collections; `findById` / `findOne` become `find?`
over those collections.  Each handler is a pure function of the store snapshot
it reads, the in-memory socket state, its request payload, and the current
wall-clock time `now`; its socket output is an explicit list of `Emission`s.
-/

namespace NRBlog

/-- A user document; only the fields the fanout layer reads are kept
(`username`/`profilePic` feed population; `following` feeds the newPost
fanout; `isAdmin` gates ban/unban). -/
structure UserDoc where
  uid : String
  username : String
  profilePic : String
  following : List String
  isAdmin : Bool
deriving DecidableEq, Repr

/-- An embedded comment sub-document of a post. -/
structure CommentDoc where
  cid : String
  userId : String
  text : String
  likes : List String
deriving DecidableEq, Repr

/-- A post document. -/
structure PostDoc where
  pid : String
  postedBy : String
  text : String
  likes : List String
  comments : List CommentDoc
  isBanned : Bool
  bannedBy : Option String
  bannedAt : Option Nat
deriving DecidableEq, Repr

/-- The document store (system of record), reduced to the two collections the
fanout layer queries. -/
structure Store where
  posts : List PostDoc
  users : List UserDoc
deriving DecidableEq, Repr

/-- `Post.findById(id)`. -/
def Store.findPost (s : Store) (id : String) : Option PostDoc :=
  s.posts.find? (fun p => p.pid == id)

/-- `User.findById(id)`. -/
def Store.findUser (s : Store) (id : String) : Option UserDoc :=
  s.users.find? (fun u => u.uid == id)

/-- `post.save()` on an already-loaded document: replaces the stored post
having the same id. -/
def Store.updatePost (s : Store) (p : PostDoc) : Store :=
  { s with posts := s.posts.map (fun q => if q.pid == p.pid then p else q) }

/-- The author fields selected by `.populate("postedBy", "username profilePic")`
(and by `.populate("comments.userId", ...)`). -/
structure PopulatedUser where
  uid : String
  username : String
  profilePic : String
deriving DecidableEq, Repr

/-- Resolving a user reference during population; an unresolvable reference
populates to `none` (Mongoose leaves the field `null`). -/
def populateUser (s : Store) (id : String) : Option PopulatedUser :=
  (s.findUser id).map (fun u => ⟨u.uid, u.username, u.profilePic⟩)

/-- A comment whose `userId` reference has been populated. -/
structure PopulatedComment where
  cid : String
  userId : Option PopulatedUser
  text : String
  likes : List String
deriving DecidableEq, Repr

def populateComment (s : Store) (c : CommentDoc) : PopulatedComment :=
  ⟨c.cid, populateUser s c.userId, c.text, c.likes⟩

/-- A post with `postedBy` (and comment authors) populated, as produced by the
`Post.findById(..).populate(..)` chains before each broadcast.  (The newPost
handler's chain populates only `postedBy`; the claims below never inspect a
comment author on that path, so one populated shape serves all handlers.) -/
structure PopulatedPost where
  pid : String
  postedBy : Option PopulatedUser
  text : String
  likes : List String
  comments : List PopulatedComment
  isBanned : Bool
deriving DecidableEq, Repr

def populatePost (s : Store) (p : PostDoc) : PopulatedPost :=
  ⟨p.pid, populateUser s p.postedBy, p.text, p.likes,
    p.comments.map (populateComment s), p.isBanned⟩

/-- `Post.findOne({ _id: postId, "comments._id": commentId }, { "comments.$": 1 })`:
the matched comment of the matched post, if both exist. -/
def findPostComment (s : Store) (postId commentId : String) : Option CommentDoc :=
  match s.findPost postId with
  | none => none
  | some p => p.comments.find? (fun c => c.cid == commentId)

/-- A bearer credential, abstracting the external JWT collaborator: a payload
carrying the embedded user identity, the key it was signed with, and whether
it is expired. -/
structure JwtToken where
  userId : String
  signedWith : String
  expired : Bool
deriving DecidableEq, Repr

/-- `jwt.verify(token, secret)`: succeeds with the embedded identity exactly
when the signature matches the server secret and the token is not expired. -/
def jwtVerify (secret : String) (t : JwtToken) : Except String String :=
  if t.signedWith ≠ secret then Except.error "invalid signature"
  else if t.expired then Except.error "jwt expired"
  else Except.ok t.userId

/-- The `/^[0-9a-fA-F]{24}$/` test on the claimed userId. -/
def isValid24Hex (s : String) : Bool :=
  s.length == 24 &&
    s.data.all (fun c => c.isDigit || ('a' ≤ c && c ≤ 'f') || ('A' ≤ c && c ≤ 'F'))

/-- The `io.use` admission middleware: returns the authenticated identity bound
to the socket (`socket.userId`) or the refusal reason passed to `next(Error)`.
An absent query parameter is `none`. -/
def ioUseMiddleware (secret : String) (token : Option JwtToken)
    (userId : Option String) : Except String String :=
  match token, userId with
  | none, _ => Except.error "Authentication error: Missing token or userId"
  | some _, none => Except.error "Authentication error: Missing token or userId"
  | some t, some uid =>
    if ¬ isValid24Hex uid then
      Except.error "Authentication error: Invalid userId format"
    else
      match jwtVerify secret t with
      | Except.error msg => Except.error ("Authentication error: " ++ msg)
      | Except.ok decodedUserId =>
        if decodedUserId ≠ uid then
          Except.error "Authentication error: Invalid token"
        else Except.ok uid

/-- In-memory socket-layer state: `userSocketMap` (userId → socketId, an assoc
list mirroring the JS object), the `typingUsers` key set, and post-room
membership as a set of (socketId, room) pairs. -/
structure SocketState where
  userSocketMap : List (String × String)
  typingUsers : List String
  rooms : List (String × String)
deriving DecidableEq, Repr

/-- Lookup in an assoc list (JS `map[key]`). -/
def lookupAssoc (m : List (String × String)) (k : String) : Option String :=
  (m.find? (fun kv => kv.1 == k)).map (fun kv => kv.2)

/-- Assignment `map[key] = value`: overwrites the existing slot or appends. -/
def setAssoc (m : List (String × String)) (k v : String) :
    List (String × String) :=
  match m with
  | [] => [(k, v)]
  | (k', v') :: rest =>
    if k' == k then (k, v) :: rest else (k', v') :: setAssoc rest k v

/-- Deletion `delete map[key]`. -/
def eraseAssoc (m : List (String × String)) (k : String) :
    List (String × String) :=
  m.filter (fun kv => kv.1 ≠ k)

/-- `getRecipientSocketId` (the registry's `resolve`): `userSocketMap[recipientId]`. -/
def getRecipientSocketId (st : SocketState) (recipientId : String) : Option String :=
  lookupAssoc st.userSocketMap recipientId

/-- Where a server emit is addressed: back to the triggering socket
(`socket.emit`), to one socket id (`io.to(socketId)`), to a room
(`io.to("post:...")`), or to every connection (`io.emit`). -/
inductive EmitTarget where
  | reply : EmitTarget
  | toSocket (sid : String) : EmitTarget
  | toRoom (room : String) : EmitTarget
  | broadcast : EmitTarget
deriving DecidableEq, Repr

/-- The payload object of each server-emitted event, one constructor per event
name, with exactly the fields the JS emit passes.  `newPostOut` carries no
timestamp field (`io.to(sid).emit("newPost", populatedPost)`); `newFeedPostOut`
keeps the `{ timestamp }` object the socket handler passes as a SECOND emit
argument in `argTimestamp` (it is not a field of the post payload), with `none`
on the createPost HTTP path which passes no such argument. -/
inductive Payload where
  | errorOut (message : String) (timestamp : Nat) : Payload
  | onlineUsersOut (users : List String) : Payload
  | newPostOut (post : PopulatedPost) : Payload
  | newFeedPostOut (post : PopulatedPost) (argTimestamp : Option Nat) : Payload
  | newCommentOut (postId : String) (comment : PopulatedComment)
      (post : Option PopulatedPost) (timestamp : Nat) : Payload
  | likeUnlikePostOut (postId : String) (userId : String) (likes : List String)
      (post : PopulatedPost) (reactionType : String) (timestamp : Nat) : Payload
  | likeUnlikeCommentOut (postId : String) (commentId : String) (userId : String)
      (likes : List String) (comment : PopulatedComment)
      (post : Option PopulatedPost) (timestamp : Nat) : Payload
  | deleteCommentOut (postId : String) (commentId : String)
      (post : Option PopulatedPost) (timestamp : Nat) : Payload
  | typingOut (conversationId : String) (userId : String) (timestamp : Nat) : Payload
  | stopTypingOut (conversationId : String) (userId : String) (timestamp : Nat) : Payload
  | postBannedOut (postId : String) (post : PopulatedPost) : Payload
  | postUnbannedOut (postId : String) (post : PopulatedPost) : Payload
deriving DecidableEq, Repr

/-- The `timestamp` field of a payload object, when the payload has one. -/
def Payload.timestampField : Payload → Option Nat
  | .errorOut _ ts => some ts
  | .onlineUsersOut _ => none
  | .newPostOut _ => none
  | .newFeedPostOut _ _ => none
  | .newCommentOut _ _ _ ts => some ts
  | .likeUnlikePostOut _ _ _ _ _ ts => some ts
  | .likeUnlikeCommentOut _ _ _ _ _ _ ts => some ts
  | .deleteCommentOut _ _ _ ts => some ts
  | .typingOut _ _ ts => some ts
  | .stopTypingOut _ _ ts => some ts
  | .postBannedOut _ _ => none
  | .postUnbannedOut _ _ => none

/-- One server emit: an addressed payload. -/
structure Emission where
  target : EmitTarget
  payload : Payload
deriving DecidableEq, Repr

/-- JS falsiness of an optional string event field: absent or empty. -/
def strFalsy : Option String → Bool
  | none => true
  | some s => s == ""

/-- The `io.on("connection")` body before the event handlers are installed:
an admitted socket whose `socket.userId` is truthy and not `"undefined"` is
written into the registry (last writer wins) and the full online-user list is
broadcast; otherwise the socket is dropped with no state change. -/
def onConnection (st : SocketState) (sid userId : String) :
    SocketState × List Emission :=
  if userId ≠ "" ∧ userId ≠ "undefined" then
    let m := setAssoc st.userSocketMap userId sid
    ({ st with userSocketMap := m },
      [⟨EmitTarget.broadcast, Payload.onlineUsersOut (m.map Prod.fst)⟩])
  else (st, [])

/-- The `disconnect` handler: `delete userSocketMap[socket.userId]` guarded
only by the truthiness of `socket.userId` — a blind delete keyed by user, with
no comparison of the departing socket's id against the stored one. -/
def onDisconnect (st : SocketState) (socketUserId : String) :
    SocketState × List Emission :=
  if socketUserId ≠ "" then
    let m := eraseAssoc st.userSocketMap socketUserId
    ({ st with userSocketMap := m },
      [⟨EmitTarget.broadcast, Payload.onlineUsersOut (m.map Prod.fst)⟩])
  else (st, [])

/-- A full connection attempt: the admission middleware, then (on success) the
connection body.  `admitted` is the bound identity when the attempt was let
through, `none` when it was refused at the handshake. -/
structure ConnectOutcome where
  state : SocketState
  admitted : Option String
  emissions : List Emission
deriving DecidableEq, Repr

def connectAttempt (secret : String) (token : Option JwtToken)
    (userId : Option String) (st : SocketState) (sid : String) : ConnectOutcome :=
  match ioUseMiddleware secret token userId with
  | Except.error _ => ⟨st, none, []⟩
  | Except.ok uid =>
    let r := onConnection st sid uid
    ⟨r.1, some uid, r.2⟩

/-- `room.startsWith("post:")`. -/
def startsWithPost (room : String) : Bool :=
  "post:".data.isPrefixOf room.data

/-- The `joinPostRoom` handler: returns unless the room string is truthy and
starts with `"post:"`; otherwise `socket.join(room)` (idempotent set insert). -/
def onJoinPostRoom (st : SocketState) (sid : String) (room : Option String) :
    SocketState :=
  match room with
  | none => st
  | some r =>
    if r == "" || !(startsWithPost r) then st
    else
      { st with rooms := if (sid, r) ∈ st.rooms then st.rooms else (sid, r) :: st.rooms }

/-- The `leavePostRoom` handler: same guard, then `socket.leave(room)`. -/
def onLeavePostRoom (st : SocketState) (sid : String) (room : Option String) :
    SocketState :=
  match room with
  | none => st
  | some r =>
    if r == "" || !(startsWithPost r) then st
    else { st with rooms := st.rooms.filter (fun m => m ≠ (sid, r)) }

/-- The fields of the `newPost` socket event's body the handler reads:
`post._id` (validated) and `post.postedBy` (used unvalidated for the follower
lookup). -/
structure NewPostReq where
  pid : Option String
  postedBy : String
deriving DecidableEq, Repr

/-- The `newPost` socket handler: validate `post?._id`, re-fetch the post,
fetch the REQUEST's `post.postedBy` user and unicast the populated post to
`[...user.following, post.postedBy]` (each resolved through the registry,
unresolved ids skipped), then `io.emit("newFeedPost", populatedPost,
{ timestamp: Date.now() })` to every connection. -/
def onNewPost (store : Store) (st : SocketState) (req : Option NewPostReq)
    (now : Nat) : List Emission :=
  match req with
  | none => [⟨EmitTarget.reply, Payload.errorOut "Invalid post ID" now⟩]
  | some post =>
    if strFalsy post.pid then
      [⟨EmitTarget.reply, Payload.errorOut "Invalid post ID" now⟩]
    else
      let pid := post.pid.getD ""
      match store.findPost pid with
      | none => [⟨EmitTarget.reply, Payload.errorOut "Post not found" now⟩]
      | some p =>
        match store.findUser post.postedBy with
        | none => [⟨EmitTarget.reply, Payload.errorOut "User not found" now⟩]
        | some user =>
          let populatedPost := populatePost store p
          let followerIds := user.following ++ [post.postedBy]
          let unicasts := followerIds.filterMap (fun followerId =>
            (getRecipientSocketId st followerId).map (fun sid =>
              (⟨EmitTarget.toSocket sid, Payload.newPostOut populatedPost⟩ : Emission)))
          unicasts ++
            [⟨EmitTarget.broadcast, Payload.newFeedPostOut populatedPost (some now)⟩]

/-- The `newComment` socket handler: validate `postId` and `comment?._id`,
re-fetch the matched comment (abort with "Comment not found" when absent),
re-fetch the full post, and broadcast both to room `post:<postId>`. -/
def onNewComment (store : Store) (postId commentId : Option String) (now : Nat) :
    List Emission :=
  if strFalsy postId || strFalsy commentId then
    [⟨EmitTarget.reply, Payload.errorOut "Invalid post or comment ID" now⟩]
  else
    let pid := postId.getD ""
    let cid := commentId.getD ""
    match findPostComment store pid cid with
    | none => [⟨EmitTarget.reply, Payload.errorOut "Comment not found" now⟩]
    | some c =>
      [⟨EmitTarget.toRoom ("post:" ++ pid),
        Payload.newCommentOut pid (populateComment store c)
          ((store.findPost pid).map (populatePost store)) now⟩]

/-- The body of the `likeUnlikePost` socket event: the ids plus the
client-supplied `likes` array. -/
structure LikeUnlikePostReq where
  postId : Option String
  userId : Option String
  likes : List String
deriving DecidableEq, Repr

/-- The `likeUnlikePost` socket handler: validate the ids, re-fetch the post
(abort with "Post not found" when absent), then broadcast to room
`post:<postId>` a payload echoing the request's `postId`, `userId` and `likes`
alongside the re-fetched populated post. -/
def onLikeUnlikePost (store : Store) (req : LikeUnlikePostReq) (now : Nat) :
    List Emission :=
  if strFalsy req.postId || strFalsy req.userId then
    [⟨EmitTarget.reply, Payload.errorOut "Invalid post or user ID" now⟩]
  else
    let pid := req.postId.getD ""
    let uid := req.userId.getD ""
    match store.findPost pid with
    | none => [⟨EmitTarget.reply, Payload.errorOut "Post not found" now⟩]
    | some p =>
      [⟨EmitTarget.toRoom ("post:" ++ pid),
        Payload.likeUnlikePostOut pid uid req.likes (populatePost store p)
          "thumbs-up" now⟩]

/-- The body of the `likeUnlikeComment` socket event. -/
structure LikeUnlikeCommentReq where
  postId : Option String
  commentId : Option String
  userId : Option String
  likes : List String
deriving DecidableEq, Repr

/-- The `likeUnlikeComment` socket handler: validate the ids, re-fetch the
matched comment (abort when absent), re-fetch the post, and broadcast to room
`post:<postId>` a payload echoing the request's ids and `likes` alongside the
re-fetched comment and post. -/
def onLikeUnlikeComment (store : Store) (req : LikeUnlikeCommentReq) (now : Nat) :
    List Emission :=
  if strFalsy req.postId || strFalsy req.commentId || strFalsy req.userId then
    [⟨EmitTarget.reply, Payload.errorOut "Invalid post, comment, or user ID" now⟩]
  else
    let pid := req.postId.getD ""
    let cid := req.commentId.getD ""
    let uid := req.userId.getD ""
    match findPostComment store pid cid with
    | none => [⟨EmitTarget.reply, Payload.errorOut "Comment not found" now⟩]
    | some c =>
      [⟨EmitTarget.toRoom ("post:" ++ pid),
        Payload.likeUnlikeCommentOut pid cid uid req.likes
          (populateComment store c)
          ((store.findPost pid).map (populatePost store)) now⟩]

/-- The `deleteComment` socket handler: validate the ids, re-fetch the post
WITHOUT a null check, and broadcast `{ postId, commentId, post, timestamp }`
to room `post:<postId>` unconditionally (the `post` field is `none` when the
post is absent). -/
def onDeleteComment (store : Store) (postId commentId : Option String)
    (now : Nat) : List Emission :=
  if strFalsy postId || strFalsy commentId then
    [⟨EmitTarget.reply, Payload.errorOut "Invalid post or comment ID" now⟩]
  else
    let pid := postId.getD ""
    let cid := commentId.getD ""
    [⟨EmitTarget.toRoom ("post:" ++ pid),
      Payload.deleteCommentOut pid cid
        ((store.findPost pid).map (populatePost store)) now⟩]

/-- The `typing` handler: validate, record key `conversationId:userId` in the
typing store, then resolve the PAYLOAD's `userId` through the registry and
unicast the typing notice to that socket (silently skipped when unresolved). -/
def onTyping (st : SocketState) (conversationId userId : Option String)
    (now : Nat) : SocketState × List Emission :=
  if strFalsy conversationId || strFalsy userId then
    (st, [⟨EmitTarget.reply, Payload.errorOut "Invalid typing data" now⟩])
  else
    let conv := conversationId.getD ""
    let uid := userId.getD ""
    let key := conv ++ ":" ++ uid
    let st' := { st with typingUsers :=
      if key ∈ st.typingUsers then st.typingUsers else key :: st.typingUsers }
    match getRecipientSocketId st uid with
    | some sid => (st', [⟨EmitTarget.toSocket sid, Payload.typingOut conv uid now⟩])
    | none => (st', [])

/-- JS `[...new Set(l)]`: deduplicate keeping first occurrences, in order. -/
def dedupAux (seen : List String) : List String → List String
  | [] => []
  | x :: xs => if x ∈ seen then dedupAux seen xs else x :: dedupAux (x :: seen) xs

def dedupKeepFirst (l : List String) : List String := dedupAux [] l

/-- The like-toggle step of the `likeUnlikePost` controller: `pull(userId)`
when `likes.includes(userId)` (Mongoose `pull` removes every equal entry),
else `likes = [...new Set([...likes, userId])]`. -/
def toggleLike (likes : List String) (userId : String) : List String :=
  if likes.contains userId then likes.filter (fun l => l ≠ userId)
  else dedupKeepFirst (likes ++ [userId])

/-- An HTTP handler outcome: status code, the message of the JSON body (when
one is set), and the populated post it returns (when one is). -/
structure HttpResp where
  status : Nat
  message : String
  post : Option PopulatedPost
deriving DecidableEq, Repr

/-- The `likeUnlikePost` HTTP controller: toggle the requesting user in the
post's like array (`pull` when present, `[...new Set([...likes, userId])]`
when absent), save, re-fetch the populated post, and broadcast the re-fetched
state to room `post:<postId>`. -/
def likeUnlikePostCtrl (store : Store) (reqUser : Option String)
    (postId : String) (now : Nat) : Store × HttpResp × List Emission :=
  match reqUser with
  | none => (store, ⟨401, "Authentication required", none⟩, [])
  | some userId =>
    match store.findPost postId with
    | none => (store, ⟨404, "Post not found or banned", none⟩, [])
    | some p =>
      if p.isBanned then (store, ⟨404, "Post not found or banned", none⟩, [])
      else
        let p' := { p with likes := toggleLike p.likes userId }
        let store' := store.updatePost p'
        match store'.findPost postId with
        | none => (store', ⟨500, "Failed to like/unlike post", none⟩, [])
        | some q =>
          let pop := populatePost store' q
          (store', ⟨200, "", some pop⟩,
            [⟨EmitTarget.toRoom ("post:" ++ postId),
              Payload.likeUnlikePostOut postId userId pop.likes pop
                "thumbs-up" now⟩])

/-- The socket-emit step of the `createPost` HTTP controller (after save and
populate): unicast the populated post to `[...user.following, user._id]`
resolved through the registry, then emit `newFeedPost` — addressed to room
`post:<newPost._id>`, with no timestamp argument. -/
def createPostFanout (store : Store) (st : SocketState) (user : UserDoc)
    (p : PostDoc) : List Emission :=
  let populatedPost := populatePost store p
  let followerIds := user.following ++ [user.uid]
  let unicasts := followerIds.filterMap (fun followerId =>
    (getRecipientSocketId st followerId).map (fun sid =>
      (⟨EmitTarget.toSocket sid, Payload.newPostOut populatedPost⟩ : Emission)))
  unicasts ++
    [⟨EmitTarget.toRoom ("post:" ++ p.pid), Payload.newFeedPostOut populatedPost none⟩]

/-- The `banPost` HTTP controller: admin gate, 404 when absent, persist the
ban flags, re-fetch the populated post; when its `postedBy` populated to null,
respond 200 with the caveat message and SKIP the room emit, else respond 200
and emit `postBanned` to room `post:<id>`. -/
def banPost (store : Store) (reqUser : Option UserDoc) (id : String)
    (now : Nat) : Store × HttpResp × List Emission :=
  match reqUser with
  | none => (store, ⟨401, "Authentication required", none⟩, [])
  | some u =>
    if ¬ u.isAdmin then (store, ⟨403, "Admin access required", none⟩, [])
    else
      match store.findPost id with
      | none => (store, ⟨404, "Post not found", none⟩, [])
      | some p =>
        let p' := { p with isBanned := true, bannedBy := some u.uid,
                           bannedAt := some now }
        let store' := store.updatePost p'
        match store'.findPost id with
        | none => (store', ⟨500, "Failed to ban post", none⟩, [])
        | some q =>
          let pop := populatePost store' q
          match pop.postedBy with
          | none =>
            (store', ⟨200, "Post banned successfully, but postedBy is invalid",
              some pop⟩, [])
          | some _ =>
            (store', ⟨200, "Post banned successfully", some pop⟩,
              [⟨EmitTarget.toRoom ("post:" ++ id), Payload.postBannedOut id pop⟩])

/-- The `unbanPost` HTTP controller, symmetric to `banPost` with the flags
cleared and the `postUnbanned` event. -/
def unbanPost (store : Store) (reqUser : Option UserDoc) (id : String) :
    Store × HttpResp × List Emission :=
  match reqUser with
  | none => (store, ⟨401, "Authentication required", none⟩, [])
  | some u =>
    if ¬ u.isAdmin then (store, ⟨403, "Admin access required", none⟩, [])
    else
      match store.findPost id with
      | none => (store, ⟨404, "Post not found", none⟩, [])
      | some p =>
        let p' := { p with isBanned := false, bannedBy := none, bannedAt := none }
        let store' := store.updatePost p'
        match store'.findPost id with
        | none => (store', ⟨500, "Failed to unban post", none⟩, [])
        | some q =>
          let pop := populatePost store' q
          match pop.postedBy with
          | none =>
            (store', ⟨200, "Post unbanned successfully, but postedBy is invalid",
              some pop⟩, [])
          | some _ =>
            (store', ⟨200, "Post unbanned successfully", some pop⟩,
              [⟨EmitTarget.toRoom ("post:" ++ id), Payload.postUnbannedOut id pop⟩])

/-- The `post` field a payload carries, when it has one (flattening the
always-present and possibly-null variants into one `Option`). -/
def Payload.postField : Payload → Option PopulatedPost
  | .newPostOut post => some post
  | .newFeedPostOut post _ => some post
  | .newCommentOut _ _ post _ => post
  | .likeUnlikePostOut _ _ _ post _ _ => some post
  | .likeUnlikeCommentOut _ _ _ _ _ post _ => post
  | .deleteCommentOut _ _ post _ => post
  | .postBannedOut _ post => some post
  | .postUnbannedOut _ post => some post
  | _ => none

/-- The top-level `likes` field a payload carries, when it has one. -/
def Payload.likesField : Payload → Option (List String)
  | .likeUnlikePostOut _ _ likes _ _ _ => some likes
  | .likeUnlikeCommentOut _ _ _ likes _ _ _ => some likes
  | _ => none

/-- The top-level `userId` field a payload carries, when it has one. -/
def Payload.userIdField : Payload → Option String
  | .likeUnlikePostOut _ userId _ _ _ _ => some userId
  | .likeUnlikeCommentOut _ _ userId _ _ _ _ => some userId
  | .typingOut _ userId _ => some userId
  | .stopTypingOut _ userId _ => some userId
  | _ => none

/-- The `comment` field a payload carries, when it has one. -/
def Payload.commentField : Payload → Option PopulatedComment
  | .newCommentOut _ c _ _ => some c
  | .likeUnlikeCommentOut _ _ _ _ c _ _ => some c
  | _ => none

theorem lookupAssoc_setAssoc_self (m : List (String × String)) (k v : String) :
    lookupAssoc (setAssoc m k v) k = some v := by
  induction m with
  | nil => simp [setAssoc, lookupAssoc]
  | cons kv rest ih =>
    obtain ⟨k', v'⟩ := kv
    by_cases h : k' = k
    · simp [setAssoc, h, lookupAssoc]
    · simpa [setAssoc, h, lookupAssoc] using ih

theorem isValid24Hex_ne_empty {u : String} (h : isValid24Hex u = true) :
    u ≠ "" := by
  intro he
  subst he
  exact absurd h (by decide)

theorem isValid24Hex_ne_undefined {u : String} (h : isValid24Hex u = true) :
    u ≠ "undefined" := by
  intro he
  subst he
  exact absurd h (by decide)

theorem find?_map_update (l : List PostDoc) (id : String) (p p' : PostDoc)
    (h : l.find? (fun q => q.pid == id) = some p) (hid : p'.pid = p.pid) :
    (l.map (fun q => if q.pid == p'.pid then p' else q)).find?
      (fun q => q.pid == id) = some p' := by
  have hpid : p.pid = id := by
    have := List.find?_some h
    simpa using this
  induction l with
  | nil => simp at h
  | cons a l ih =>
    by_cases ha : a.pid = id
    · rw [List.find?_cons_of_pos _ (by simpa using ha)] at h
      have hap : a = p := by injection h
      subst hap
      have hcond : (a.pid == p'.pid) = true := by rw [hid]; simp
      simp only [List.map_cons, hcond, if_true]
      exact List.find?_cons_of_pos _ (by rw [hid]; simpa using hpid)
    · rw [List.find?_cons_of_neg _ (by simpa using ha)] at h
      have hcond : (a.pid == p'.pid) = false := by
        rw [hid, hpid]
        simpa using ha
      simp only [List.map_cons, hcond, if_false]
      rw [List.find?_cons_of_neg _ (by simpa using ha)]
      exact ih h

/-- `save` then `findById` of the same id reads back the saved document. -/
theorem Store.findPost_updatePost (s : Store) (id : String) (p p' : PostDoc)
    (h : s.findPost id = some p) (hid : p'.pid = p.pid) :
    (s.updatePost p').findPost id = some p' :=
  find?_map_update s.posts id p p' h hid

/-- `updatePost` leaves the user collection alone. -/
theorem Store.findUser_updatePost (s : Store) (p' : PostDoc) (id : String) :
    (s.updatePost p').findUser id = s.findUser id := rfl

theorem mem_notMem_dedupAux (seen : List String) (l : List String) (u : String)
    (h : u ∈ seen) : u ∉ dedupAux seen l := by
  induction l generalizing seen with
  | nil => simp [dedupAux]
  | cons x xs ih =>
    by_cases hx : x ∈ seen
    · simpa [dedupAux, hx] using ih seen h
    · simp only [dedupAux, if_neg hx, List.mem_cons, not_or]
      refine ⟨fun he => hx (he ▸ h), ih (x :: seen) (List.mem_cons_of_mem x h)⟩

theorem count_dedupAux_le_one (seen : List String) (l : List String) (u : String) :
    (dedupAux seen l).count u ≤ 1 := by
  induction l generalizing seen with
  | nil => simp [dedupAux]
  | cons x xs ih =>
    by_cases hx : x ∈ seen
    · simpa [dedupAux, hx] using ih seen
    · simp only [dedupAux, if_neg hx]
      by_cases hu : x = u
      · subst hu
        have hnm : x ∉ dedupAux (x :: seen) xs :=
          mem_notMem_dedupAux (x :: seen) xs x (List.mem_cons_self x seen)
        simp [List.count_cons, List.count_eq_zero.mpr hnm]
      · simpa [List.count_cons, hu] using ih (x :: seen)

theorem mem_dedupAux (seen : List String) (l : List String) (u : String)
    (hl : u ∈ l) (hs : u ∉ seen) : u ∈ dedupAux seen l := by
  induction l generalizing seen with
  | nil => simp at hl
  | cons x xs ih =>
    by_cases hx : x ∈ seen
    · have hux : u ≠ x := fun he => hs (he ▸ hx)
      have hl' : u ∈ xs := by
        rcases List.mem_cons.mp hl with h | h
        · exact absurd h hux
        · exact h
      simpa [dedupAux, hx] using ih seen hl' hs
    · simp only [dedupAux, if_neg hx, List.mem_cons]
      by_cases hux : u = x
      · exact Or.inl hux
      · have hl' : u ∈ xs := by
          rcases List.mem_cons.mp hl with h | h
          · exact absurd h hux
          · exact h
        refine Or.inr (ih (x :: seen) hl' ?_)
        simp only [List.mem_cons, not_or]
        exact ⟨hux, hs⟩

theorem count_dedupKeepFirst_le_one (l : List String) (u : String) :
    (dedupKeepFirst l).count u ≤ 1 :=
  count_dedupAux_le_one [] l u

theorem count_dedupKeepFirst_of_mem (l : List String) (u : String) (h : u ∈ l) :
    (dedupKeepFirst l).count u = 1 := by
  have h1 : (dedupKeepFirst l).count u ≤ 1 := count_dedupKeepFirst_le_one l u
  have h2 : u ∈ dedupKeepFirst l := mem_dedupAux [] l u h (by simp)
  have h3 : 0 < (dedupKeepFirst l).count u := List.count_pos_iff.mpr h2
  omega

theorem count_filter_ne_self (l : List String) (u : String) :
    (l.filter (fun x => x ≠ u)).count u = 0 := by
  refine List.count_eq_zero.mpr ?_
  intro hmem
  have := (List.mem_filter.mp hmem).2
  simp at this

/-- C1: the `disconnect` handler deletes `userSocketMap[socket.userId]`
unconditionally, so when user `0123...4567` registers connection `sockA` and
then connection `sockB`, the later stale disconnect of `sockA` evicts `sockB`'s
entry: `resolve(user)` is absent afterwards, not `sockB` as the claim requires.
This theorem evaluates the embedded code at that failing input. -/
theorem C1_stale_disconnect_evicts :
    getRecipientSocketId
      (onConnection (onConnection ⟨[], [], []⟩ "sockA"
        "0123456789abcdef01234567").1 "sockB" "0123456789abcdef01234567").1
      "0123456789abcdef01234567" = some "sockB" ∧
    getRecipientSocketId
      (onDisconnect
        (onConnection (onConnection ⟨[], [], []⟩ "sockA"
          "0123456789abcdef01234567").1 "sockB" "0123456789abcdef01234567").1
        "0123456789abcdef01234567").1
      "0123456789abcdef01234567" = none := by
  decide

/-- C2 counterexample: with the store holding post `p1` whose like array is
`["u1"]`, a `likeUnlikePost` event carrying the client-sent array
`["spoofed", "spoofed"]` is broadcast with that request-supplied array (and the
request-supplied `userId`) verbatim in the payload, even though it differs from
the re-read post state's likes — refuting the claim that no broadcast field is
taken directly from the request body. -/
theorem C2_request_likes_echoed :
    onLikeUnlikePost
      ⟨[⟨"p1", "author1", "hello", ["u1"], [], false, none, none⟩],
       [⟨"author1", "alice", "pic", [], false⟩]⟩
      ⟨some "p1", some "u2", ["spoofed", "spoofed"]⟩ 5 =
      [⟨EmitTarget.toRoom "post:p1",
        Payload.likeUnlikePostOut "p1" "u2" ["spoofed", "spoofed"]
          ⟨"p1", some ⟨"author1", "alice", "pic"⟩, "hello", ["u1"], [], false⟩
          "thumbs-up" 5⟩] ∧
    (["spoofed", "spoofed"] : List String) ≠ ["u1"] := by
  decide

/-- C3 counterexample: user `uF` follows the author `uA` (so `uF` is a
follower of the author) and is resolvable through the registry, yet the
`newPost` handler sends `uF`'s socket nothing: the unicast set is built from
the AUTHOR's `following` list (plus the author), not from the author's
followers. -/
theorem C3_follower_not_unicast :
    (∀ e ∈ onNewPost
        ⟨[⟨"p1", "uA", "hi", [], [], false, none, none⟩],
         [⟨"uA", "alice", "pic", [], false⟩, ⟨"uF", "fred", "pic", ["uA"], false⟩]⟩
        ⟨[("uA", "sA"), ("uF", "sF")], [], []⟩
        (some ⟨some "p1", "uA"⟩) 7,
      e.target ≠ EmitTarget.toSocket "sF") ∧
    getRecipientSocketId ⟨[("uA", "sA"), ("uF", "sF")], [], []⟩ "uF" = some "sF" ∧
    ("uA" ∈ (["uA"] : List String)) := by
  decide

/-- C4 counterexample: a `deleteComment` event whose post re-fetch finds the
post absent still broadcasts to room `post:p1`, with `post = none` in the
payload and no "not found" error reply — refuting "no broadcast is performed
when canonical state is absent". -/
theorem C4_delete_comment_broadcasts_missing :
    onDeleteComment ⟨[], []⟩ (some "p1") (some "c1") 3 =
      [⟨EmitTarget.toRoom "post:p1", Payload.deleteCommentOut "p1" "c1" none 3⟩] := by
  decide

/-- C6 counterexample: `joinPostRoom` accepts `"post:zzz"` — the suffix `zzz`
is not a valid post identifier (post ids have the 24-hex ObjectId shape) — and
the connection's room membership changes, refuting "any other string is
rejected and the membership is unchanged". -/
theorem C6_join_accepts_invalid_id :
    (onJoinPostRoom ⟨[], [], []⟩ "s1" (some "post:zzz")).rooms =
      [("s1", "post:zzz")] ∧
    isValid24Hex "zzz" = false := by
  decide

/-- C7 counterexample: in a `newPost` run, the unicast to the author-side
recipient carries no `timestamp` field in its payload, and the `newFeedPost`
broadcast's payload carries none either (its timestamp travels only as a
separate second emit argument) — refuting "every outgoing server-emitted event
carries a server-assigned timestamp field in its payload". -/
theorem C7_newPost_unicast_lacks_timestamp :
    (onNewPost
        ⟨[⟨"p1", "uA", "hi", [], [], false, none, none⟩],
         [⟨"uA", "alice", "pic", [], false⟩]⟩
        ⟨[("uA", "sA")], [], []⟩
        (some ⟨some "p1", "uA"⟩) 7).map
      (fun e => (e.target, e.payload.timestampField)) =
      [(EmitTarget.toSocket "sA", none), (EmitTarget.broadcast, none)] := by
  decide

/-- C5: a connection attempt is refused — admitted is `none` and the socket
state (in particular the registry) is left untouched — when the token or the
userId parameter is absent, when the userId is not a 24-character hex string,
when the token fails signature or expiry verification, or when the token's
embedded identity differs from the claimed userId; and an attempt with a
correctly signed, unexpired token whose embedded identity equals the claimed
24-hex userId is admitted, after which the registry maps that identity to the
connection. -/
theorem C5_admission (secret : String) (token : Option JwtToken)
    (userId : Option String) (st : SocketState) (sid : String) :
    (token = none →
      (connectAttempt secret token userId st sid).admitted = none ∧
      (connectAttempt secret token userId st sid).state = st) ∧
    (userId = none →
      (connectAttempt secret token userId st sid).admitted = none ∧
      (connectAttempt secret token userId st sid).state = st) ∧
    (∀ u, userId = some u → isValid24Hex u = false →
      (connectAttempt secret token userId st sid).admitted = none ∧
      (connectAttempt secret token userId st sid).state = st) ∧
    (∀ t u, token = some t → userId = some u →
      (t.signedWith ≠ secret ∨ t.expired = true) →
      (connectAttempt secret token userId st sid).admitted = none ∧
      (connectAttempt secret token userId st sid).state = st) ∧
    (∀ t u, token = some t → userId = some u → t.signedWith = secret →
      t.expired = false → t.userId ≠ u →
      (connectAttempt secret token userId st sid).admitted = none ∧
      (connectAttempt secret token userId st sid).state = st) ∧
    (∀ t u, token = some t → userId = some u → isValid24Hex u = true →
      t.signedWith = secret → t.expired = false → t.userId = u →
      (connectAttempt secret token userId st sid).admitted = some u ∧
      getRecipientSocketId (connectAttempt secret token userId st sid).state u =
        some sid) := by
  refine ⟨?_, ?_, ?_, ?_, ?_, ?_⟩
  · intro h
    subst h
    simp [connectAttempt, ioUseMiddleware]
  · intro h
    subst h
    cases token with
    | none => simp [connectAttempt, ioUseMiddleware]
    | some t => simp [connectAttempt, ioUseMiddleware]
  · intro u hu hvalid
    subst hu
    cases token with
    | none => simp [connectAttempt, ioUseMiddleware]
    | some t => simp [connectAttempt, ioUseMiddleware, hvalid]
  · intro t u ht hu hbad
    subst ht
    subst hu
    by_cases hv : isValid24Hex u
    · rcases hbad with hsig | hexp
      · simp [connectAttempt, ioUseMiddleware, jwtVerify, hv, hsig]
      · by_cases hsig : t.signedWith = secret
        · simp [connectAttempt, ioUseMiddleware, jwtVerify, hv, hsig, hexp]
        · simp [connectAttempt, ioUseMiddleware, jwtVerify, hv, hsig]
    · simp [connectAttempt, ioUseMiddleware, hv]
  · intro t u ht hu hsig hexp hne
    subst ht
    subst hu
    by_cases hv : isValid24Hex u
    · simp [connectAttempt, ioUseMiddleware, jwtVerify, hv, hsig, hexp, hne]
    · simp [connectAttempt, ioUseMiddleware, hv]
  · intro t u ht hu hv hsig hexp heq
    subst ht
    subst hu
    have h1 : u ≠ "" := isValid24Hex_ne_empty hv
    have h2 : u ≠ "undefined" := isValid24Hex_ne_undefined hv
    simp only [connectAttempt, ioUseMiddleware, jwtVerify, hv, Bool.not_true,
      not_false_eq_true, if_neg, hsig, hexp, heq, getRecipientSocketId]
    simp [hsig, hexp, heq, onConnection, h1, h2, getRecipientSocketId,
      lookupAssoc_setAssoc_self]

/-- C5 witness: a concrete attempt with a well-signed, unexpired token whose
embedded identity equals the claimed 24-hex userId is admitted and the
registry then resolves that identity to the connection. -/
theorem C5_admission_check :
    (connectAttempt "secretKey"
      (some ⟨"0123456789abcdef01234567", "secretKey", false⟩)
      (some "0123456789abcdef01234567") ⟨[], [], []⟩ "s1").admitted =
      some "0123456789abcdef01234567" ∧
    getRecipientSocketId
      (connectAttempt "secretKey"
        (some ⟨"0123456789abcdef01234567", "secretKey", false⟩)
        (some "0123456789abcdef01234567") ⟨[], [], []⟩ "s1").state
      "0123456789abcdef01234567" = some "s1" :=
  (C5_admission "secretKey"
    (some ⟨"0123456789abcdef01234567", "secretKey", false⟩)
    (some "0123456789abcdef01234567") ⟨[], [], []⟩ "s1").2.2.2.2.2
    ⟨"0123456789abcdef01234567", "secretKey", false⟩ "0123456789abcdef01234567"
    rfl rfl (by decide) rfl rfl rfl

/-- C9 counterexample: both parties `u1` and `u2` are registered; `u1` emits
`typing`. The notice is unicast to socket `s1` — the connection the registry
holds for the TYPING user's own id `u1` — and nothing is sent to the
counterpart's socket `s2`, refuting "unicasts to the other party, not to the
typing user's own connection". -/
theorem C9_typing_notice_to_self :
    (onTyping ⟨[("u1", "s1"), ("u2", "s2")], [], []⟩ (some "c1") (some "u1") 3).2 =
      [⟨EmitTarget.toSocket "s1", Payload.typingOut "c1" "u1" 3⟩] ∧
    getRecipientSocketId ⟨[("u1", "s1"), ("u2", "s2")], [], []⟩ "u1" = some "s1" := by
  decide

/-- C6 (amended): `joinPostRoom` and `leavePostRoom` are no-ops exactly when
the room string is absent or does not start with the prefix `post:`; any
nonempty string starting with `post:` is accepted (the id suffix is not
validated), joining adds the membership and leaving removes it. -/
theorem C6_room_prefix_guard (st : SocketState) (sid : String)
    (room : Option String) :
    ((room = none ∨ (∃ r, room = some r ∧ startsWithPost r = false)) →
      onJoinPostRoom st sid room = st ∧ onLeavePostRoom st sid room = st) ∧
    (∀ r, room = some r → r ≠ "" → startsWithPost r = true →
      ((sid, r) ∈ (onJoinPostRoom st sid room).rooms ∧
        (sid, r) ∉ (onLeavePostRoom st sid room).rooms)) := by
  constructor
  · rintro (h | ⟨r, hr, hsw⟩)
    · subst h
      exact ⟨rfl, rfl⟩
    · subst hr
      by_cases he : r = ""
      · subst he
        simp [onJoinPostRoom, onLeavePostRoom]
      · simp [onJoinPostRoom, onLeavePostRoom, he, hsw]
  · intro r hr hne hsw
    subst hr
    constructor
    · by_cases hm : (sid, r) ∈ st.rooms
      · simp [onJoinPostRoom, hne, hsw, hm]
      · simp [onJoinPostRoom, hne, hsw, hm]
    · simp [onLeavePostRoom, hne, hsw, List.mem_filter]

/-- C6 witness: joining the well-formed room `post:abc` on a fresh state adds
the membership and leaving removes it. -/
theorem C6_room_guard_check :
    ("s1", "post:abc") ∈ (onJoinPostRoom ⟨[], [], []⟩ "s1" (some "post:abc")).rooms ∧
    ("s1", "post:abc") ∉ (onLeavePostRoom ⟨[], [], []⟩ "s1" (some "post:abc")).rooms :=
  (C6_room_prefix_guard ⟨[], [], []⟩ "s1" (some "post:abc")).2 "post:abc" rfl
    (by decide) (by decide)

/-- C9 (amended): for a valid `typing(conversationId, userId)` event the key
`conversationId:userId` is recorded in the typing store, and the notice is
unicast to whatever connection the registry holds for the PAYLOAD's `userId`
— the id recorded as the typing user — silently skipped when that id is
unresolved; no conversation counterpart is ever resolved. -/
theorem C9_typing_records_and_unicasts (st : SocketState) (conv uid : String)
    (now : Nat) (hc : conv ≠ "") (hu : uid ≠ "") :
    (conv ++ ":" ++ uid) ∈ (onTyping st (some conv) (some uid) now).1.typingUsers ∧
    (∀ sid, getRecipientSocketId st uid = some sid →
      (onTyping st (some conv) (some uid) now).2 =
        [⟨EmitTarget.toSocket sid, Payload.typingOut conv uid now⟩]) ∧
    (getRecipientSocketId st uid = none →
      (onTyping st (some conv) (some uid) now).2 = []) := by
  have hsc : strFalsy (some conv) = false := by simp [strFalsy, hc]
  have hsu : strFalsy (some uid) = false := by simp [strFalsy, hu]
  refine ⟨?_, ?_, ?_⟩
  · cases hl : getRecipientSocketId st uid with
    | none =>
      by_cases hk : (conv ++ ":" ++ uid) ∈ st.typingUsers
      · simp [onTyping, hsc, hsu, hl, hk]
      · simp [onTyping, hsc, hsu, hl, hk]
    | some sid =>
      by_cases hk : (conv ++ ":" ++ uid) ∈ st.typingUsers
      · simp [onTyping, hsc, hsu, hl, hk]
      · simp [onTyping, hsc, hsu, hl, hk]
  · intro sid hl
    simp [onTyping, hsc, hsu, hl]
  · intro hl
    simp [onTyping, hsc, hsu, hl]

/-- C9 witness: with `u1` registered at `s1`, a `typing` event from `u1`
records `c1:u1` and unicasts the notice to `s1` (the socket the registry holds
for the payload's own `userId`). -/
theorem C9_typing_check :
    ("c1" ++ ":" ++ "u1") ∈
      (onTyping ⟨[("u1", "s1")], [], []⟩ (some "c1") (some "u1") 3).1.typingUsers ∧
    (onTyping ⟨[("u1", "s1")], [], []⟩ (some "c1") (some "u1") 3).2 =
      [⟨EmitTarget.toSocket "s1", Payload.typingOut "c1" "u1" 3⟩] :=
  ⟨(C9_typing_records_and_unicasts ⟨[("u1", "s1")], [], []⟩ "c1" "u1" 3
      (by decide) (by decide)).1,
    (C9_typing_records_and_unicasts ⟨[("u1", "s1")], [], []⟩ "c1" "u1" 3
      (by decide) (by decide)).2.1 "s1" rfl⟩

/-- C4 (amended): when the re-fetched entity is absent, `newComment` emits
only the "Comment not found" error to the triggering connection and performs
no broadcast; `deleteComment`, by contrast, still broadcasts to the post room,
carrying `post = none` and emitting no error. -/
theorem C4_missing_entity (store : Store) (pid cid : String) (now : Nat)
    (hp : pid ≠ "") (hc : cid ≠ "") :
    (findPostComment store pid cid = none →
      onNewComment store (some pid) (some cid) now =
        [⟨EmitTarget.reply, Payload.errorOut "Comment not found" now⟩]) ∧
    (store.findPost pid = none →
      onDeleteComment store (some pid) (some cid) now =
        [⟨EmitTarget.toRoom ("post:" ++ pid),
          Payload.deleteCommentOut pid cid none now⟩]) := by
  constructor
  · intro h
    simp [onNewComment, strFalsy, hp, hc, h]
  · intro h
    simp [onDeleteComment, strFalsy, hp, hc, h]

/-- C4 witness: on an empty store, `newComment(p1, c1)` yields only the error
reply, while `deleteComment(p1, c1)` broadcasts to `post:p1` with a null post. -/
theorem C4_missing_entity_check :
    onNewComment ⟨[], []⟩ (some "p1") (some "c1") 4 =
      [⟨EmitTarget.reply, Payload.errorOut "Comment not found" 4⟩] ∧
    onDeleteComment ⟨[], []⟩ (some "p1") (some "c1") 4 =
      [⟨EmitTarget.toRoom ("post:" ++ "p1"),
        Payload.deleteCommentOut "p1" "c1" none 4⟩] :=
  ⟨(C4_missing_entity ⟨[], []⟩ "p1" "c1" 4 (by decide) (by decide)).1 rfl,
    (C4_missing_entity ⟨[], []⟩ "p1" "c1" 4 (by decide) (by decide)).2 rfl⟩

/-- C2 (amended): whenever `likeUnlikePost` or `likeUnlikeComment` broadcasts
to a room, the `post` (and `comment`) fields of the payload are exactly the
state re-read from the store at broadcast time, but the payload's top-level
`likes` and `userId` fields are echoed verbatim from the request body. -/
theorem C2_refetched_post_with_echoed_fields (store : Store)
    (req : LikeUnlikePostReq) (req2 : LikeUnlikeCommentReq) (now : Nat) :
    (∀ e ∈ onLikeUnlikePost store req now, ∀ room,
      e.target = EmitTarget.toRoom room →
      ∃ pid p, req.postId = some pid ∧ store.findPost pid = some p ∧
        room = "post:" ++ pid ∧
        e.payload.postField = some (populatePost store p) ∧
        e.payload.likesField = some req.likes ∧
        e.payload.userIdField = req.userId) ∧
    (∀ e ∈ onLikeUnlikeComment store req2 now, ∀ room,
      e.target = EmitTarget.toRoom room →
      ∃ pid cid c, req2.postId = some pid ∧ req2.commentId = some cid ∧
        findPostComment store pid cid = some c ∧
        room = "post:" ++ pid ∧
        e.payload.commentField = some (populateComment store c) ∧
        e.payload.postField = (store.findPost pid).map (populatePost store) ∧
        e.payload.likesField = some req2.likes ∧
        e.payload.userIdField = req2.userId) := by
  constructor
  · intro e he room ht
    cases hreqp : req.postId with
    | none =>
      simp [onLikeUnlikePost, hreqp, strFalsy] at he
      simp [he] at ht
    | some pid =>
      by_cases hpe : pid = ""
      · subst hpe
        simp [onLikeUnlikePost, hreqp, strFalsy] at he
        simp [he] at ht
      · cases hrequ : req.userId with
        | none =>
          simp [onLikeUnlikePost, hreqp, hrequ, strFalsy] at he
          simp [he] at ht
        | some uid =>
          by_cases hue : uid = ""
          · subst hue
            simp [onLikeUnlikePost, hreqp, hrequ, strFalsy] at he
            simp [he] at ht
          · cases hfind : store.findPost pid with
            | none =>
              simp [onLikeUnlikePost, hreqp, hrequ, strFalsy, hpe, hue, hfind] at he
              simp [he] at ht
            | some p =>
              simp [onLikeUnlikePost, hreqp, hrequ, strFalsy, hpe, hue, hfind] at he
              refine ⟨pid, p, rfl, hfind, ?_, ?_, ?_, ?_⟩
              · rw [he] at ht
                simp at ht
                exact ht.symm
              · simp [he, Payload.postField]
              · simp [he, Payload.likesField]
              · simp [he, Payload.userIdField, hrequ]
  · intro e he room ht
    cases hreqp : req2.postId with
    | none =>
      simp [onLikeUnlikeComment, hreqp, strFalsy] at he
      simp [he] at ht
    | some pid =>
      by_cases hpe : pid = ""
      · subst hpe
        simp [onLikeUnlikeComment, hreqp, strFalsy] at he
        simp [he] at ht
      · cases hreqc : req2.commentId with
        | none =>
          simp [onLikeUnlikeComment, hreqp, hreqc, strFalsy] at he
          simp [he] at ht
        | some cid =>
          by_cases hce : cid = ""
          · subst hce
            simp [onLikeUnlikeComment, hreqp, hreqc, strFalsy] at he
            simp [he] at ht
          · cases hrequ : req2.userId with
            | none =>
              simp [onLikeUnlikeComment, hreqp, hreqc, hrequ, strFalsy] at he
              simp [he] at ht
            | some uid =>
              by_cases hue : uid = ""
              · subst hue
                simp [onLikeUnlikeComment, hreqp, hreqc, hrequ, strFalsy] at he
                simp [he] at ht
              · cases hfind : findPostComment store pid cid with
                | none =>
                  simp [onLikeUnlikeComment, hreqp, hreqc, hrequ, strFalsy,
                    hpe, hce, hue, hfind] at he
                  simp [he] at ht
                | some c =>
                  simp [onLikeUnlikeComment, hreqp, hreqc, hrequ, strFalsy,
                    hpe, hce, hue, hfind] at he
                  refine ⟨pid, cid, c, rfl, rfl, hfind, ?_, ?_, ?_, ?_, ?_⟩
                  · rw [he] at ht
                    simp at ht
                    exact ht.symm
                  · simp [he, Payload.commentField]
                  · simp [he, Payload.postField]
                  · simp [he, Payload.likesField]
                  · simp [he, Payload.userIdField, hrequ]

/-- C2 witness: in a concrete run of `likeUnlikePost`, the room broadcast's
`post` field is the store's populated post while its `likes` field is the
request's array. -/
theorem C2_refetched_check :
    ∃ pid p, (some "p1" : Option String) = some pid ∧
      (Store.mk [⟨"p1", "author1", "hello", ["u1"], [], false, none, none⟩]
        [⟨"author1", "alice", "pic", [], false⟩]).findPost pid = some p ∧
      "post:p1" = "post:" ++ pid ∧
      (Payload.likeUnlikePostOut "p1" "u2" ["x"]
        ⟨"p1", some ⟨"author1", "alice", "pic"⟩, "hello", ["u1"], [], false⟩
        "thumbs-up" 5).postField =
        some (populatePost
          (Store.mk [⟨"p1", "author1", "hello", ["u1"], [], false, none, none⟩]
            [⟨"author1", "alice", "pic", [], false⟩]) p) ∧
      (Payload.likeUnlikePostOut "p1" "u2" ["x"]
        ⟨"p1", some ⟨"author1", "alice", "pic"⟩, "hello", ["u1"], [], false⟩
        "thumbs-up" 5).likesField = some ["x"] ∧
      (Payload.likeUnlikePostOut "p1" "u2" ["x"]
        ⟨"p1", some ⟨"author1", "alice", "pic"⟩, "hello", ["u1"], [], false⟩
        "thumbs-up" 5).userIdField = some "u2" :=
  (C2_refetched_post_with_echoed_fields
    (Store.mk [⟨"p1", "author1", "hello", ["u1"], [], false, none, none⟩]
      [⟨"author1", "alice", "pic", [], false⟩])
    ⟨some "p1", some "u2", ["x"]⟩ ⟨none, none, none, []⟩ 5).1
    ⟨EmitTarget.toRoom "post:p1",
      Payload.likeUnlikePostOut "p1" "u2" ["x"]
        ⟨"p1", some ⟨"author1", "alice", "pic"⟩, "hello", ["u1"], [], false⟩
        "thumbs-up" 5⟩
    (by decide) "post:p1" rfl

/-- C3 (amended): for a new-post event whose validations pass, the delivery
target set is exactly a unicast of the enriched post to every registry-resolved
user in the AUTHOR's `following` list plus the author (absent registry entries
silently skipped) — not to the author's followers — together with, on the
socket-handler path, a global `newFeedPost` broadcast of the same enriched
post; on the createPost HTTP path the `newFeedPost` notice instead goes only
to room `post:<postId>` and nothing is globally broadcast. -/
theorem C3_newPost_target_set (store : Store) (st : SocketState)
    (req : NewPostReq) (pid : String) (p : PostDoc) (user : UserDoc) (now : Nat)
    (hreq : req.pid = some pid) (hpe : pid ≠ "")
    (hp : store.findPost pid = some p)
    (hu : store.findUser req.postedBy = some user) :
    (∀ sid,
      (⟨EmitTarget.toSocket sid, Payload.newPostOut (populatePost store p)⟩ : Emission) ∈
          onNewPost store st (some req) now ↔
        ∃ fid, fid ∈ user.following ++ [req.postedBy] ∧
          getRecipientSocketId st fid = some sid) ∧
    ((⟨EmitTarget.broadcast,
      Payload.newFeedPostOut (populatePost store p) (some now)⟩ : Emission) ∈
      onNewPost store st (some req) now) ∧
    (∀ sid,
      (⟨EmitTarget.toSocket sid, Payload.newPostOut (populatePost store p)⟩ : Emission) ∈
          createPostFanout store st user p ↔
        ∃ fid, fid ∈ user.following ++ [user.uid] ∧
          getRecipientSocketId st fid = some sid) ∧
    ((⟨EmitTarget.toRoom ("post:" ++ p.pid),
      Payload.newFeedPostOut (populatePost store p) none⟩ : Emission) ∈
      createPostFanout store st user p) ∧
    (∀ e ∈ createPostFanout store st user p, e.target ≠ EmitTarget.broadcast) := by
  have hems : onNewPost store st (some req) now =
      (user.following ++ [req.postedBy]).filterMap (fun followerId =>
        (getRecipientSocketId st followerId).map (fun sid =>
          (⟨EmitTarget.toSocket sid, Payload.newPostOut (populatePost store p)⟩ : Emission))) ++
        [⟨EmitTarget.broadcast, Payload.newFeedPostOut (populatePost store p) (some now)⟩] := by
    simp [onNewPost, hreq, strFalsy, hpe, hp, hu]
  refine ⟨?_, ?_, ?_, ?_, ?_⟩
  · intro sid
    rw [hems]
    simp only [List.mem_append, List.mem_filterMap, Option.map_eq_some',
      List.mem_singleton]
    simp only [Emission.mk.injEq, EmitTarget.toSocket.injEq]
    simp
  · rw [hems]
    exact List.mem_append_right _ (List.mem_singleton_self _)
  · intro sid
    simp only [createPostFanout, List.mem_append, List.mem_filterMap,
      Option.map_eq_some', List.mem_singleton]
    simp
  · simp [createPostFanout]
  · intro e he
    simp only [createPostFanout, List.mem_append, List.mem_filterMap,
      Option.map_eq_some', List.mem_singleton] at he
    rcases he with ⟨fid, _, a, _, hea⟩ | hee
    · rw [← hea]
      simp
    · rw [hee]
      simp

/-- C3 witness: in the concrete scenario, the author-side unicast to socket
`sA` (the author's own registry entry, since the author list is
`following ++ [postedBy]`) is among the handler's emissions. -/
theorem C3_newPost_target_check :
    (⟨EmitTarget.toSocket "sA",
      Payload.newPostOut ⟨"p1", some ⟨"uA", "alice", "pic"⟩, "hi", [], [], false⟩⟩ : Emission) ∈
      onNewPost
        ⟨[⟨"p1", "uA", "hi", [], [], false, none, none⟩],
         [⟨"uA", "alice", "pic", [], false⟩, ⟨"uF", "fred", "pic", ["uA"], false⟩]⟩
        ⟨[("uA", "sA"), ("uF", "sF")], [], []⟩
        (some ⟨some "p1", "uA"⟩) 7 :=
  ((C3_newPost_target_set
    ⟨[⟨"p1", "uA", "hi", [], [], false, none, none⟩],
     [⟨"uA", "alice", "pic", [], false⟩, ⟨"uF", "fred", "pic", ["uA"], false⟩]⟩
    ⟨[("uA", "sA"), ("uF", "sF")], [], []⟩
    ⟨some "p1", "uA"⟩ "p1" ⟨"p1", "uA", "hi", [], [], false, none, none⟩
    ⟨"uA", "alice", "pic", [], false⟩ 7
    rfl (by decide) (by decide) (by decide)).1 "sA").mpr
    ⟨"uA", by decide, by decide⟩

/-- C7 (amended): in a new-post fanout whose validations pass, no emitted
payload carries a `timestamp` field — the unicast `newPost` payload has none,
and the socket-path `newFeedPost` broadcast carries the server timestamp only
as a separate second emit argument (the createPost HTTP path attaches no
timestamp at all); error replies do carry a `timestamp` field. -/
theorem C7_newPost_no_payload_timestamp (store : Store) (st : SocketState)
    (req : NewPostReq) (pid : String) (p : PostDoc) (user : UserDoc) (now : Nat)
    (hreq : req.pid = some pid) (hpe : pid ≠ "")
    (hp : store.findPost pid = some p)
    (hu : store.findUser req.postedBy = some user) :
    (∀ e ∈ onNewPost store st (some req) now, e.payload.timestampField = none) ∧
    ((⟨EmitTarget.broadcast,
      Payload.newFeedPostOut (populatePost store p) (some now)⟩ : Emission) ∈
      onNewPost store st (some req) now) ∧
    (∀ e ∈ createPostFanout store st user p, e.payload.timestampField = none) ∧
    (∀ st' now', onNewPost store st' none now' =
      [⟨EmitTarget.reply, Payload.errorOut "Invalid post ID" now'⟩] ∧
      (Payload.errorOut "Invalid post ID" now').timestampField = some now') := by
  have hems : onNewPost store st (some req) now =
      (user.following ++ [req.postedBy]).filterMap (fun followerId =>
        (getRecipientSocketId st followerId).map (fun sid =>
          (⟨EmitTarget.toSocket sid, Payload.newPostOut (populatePost store p)⟩ : Emission))) ++
        [⟨EmitTarget.broadcast, Payload.newFeedPostOut (populatePost store p) (some now)⟩] := by
    simp [onNewPost, hreq, strFalsy, hpe, hp, hu]
  refine ⟨?_, ?_, ?_, ?_⟩
  · intro e he
    rw [hems] at he
    simp only [List.mem_append, List.mem_filterMap, Option.map_eq_some',
      List.mem_singleton] at he
    rcases he with ⟨fid, _, a, _, hea⟩ | hee
    · rw [← hea]
      simp [Payload.timestampField]
    · rw [hee]
      simp [Payload.timestampField]
  · rw [hems]
    exact List.mem_append_right _ (List.mem_singleton_self _)
  · intro e he
    simp only [createPostFanout, List.mem_append, List.mem_filterMap,
      Option.map_eq_some', List.mem_singleton] at he
    rcases he with ⟨fid, _, a, _, hea⟩ | hee
    · rw [← hea]
      simp [Payload.timestampField]
    · rw [hee]
      simp [Payload.timestampField]
  · intro st' now'
    exact ⟨by simp [onNewPost], rfl⟩

/-- C7 witness: the concrete `newPost` unicast emitted to socket `sA` carries
no `timestamp` field in its payload. -/
theorem C7_no_payload_timestamp_check :
    (Payload.newPostOut
      ⟨"p1", some ⟨"uA", "alice", "pic"⟩, "hi", [], [], false⟩).timestampField = none :=
  (C7_newPost_no_payload_timestamp
    ⟨[⟨"p1", "uA", "hi", [], [], false, none, none⟩],
     [⟨"uA", "alice", "pic", [], false⟩, ⟨"uF", "fred", "pic", ["uA"], false⟩]⟩
    ⟨[("uA", "sA"), ("uF", "sF")], [], []⟩
    ⟨some "p1", "uA"⟩ "p1" ⟨"p1", "uA", "hi", [], [], false, none, none⟩
    ⟨"uA", "alice", "pic", [], false⟩ 7
    rfl (by decide) (by decide) (by decide)).1
    ⟨EmitTarget.toSocket "sA",
      Payload.newPostOut ⟨"p1", some ⟨"uA", "alice", "pic"⟩, "hi", [], [], false⟩⟩
    (by decide)

theorem count_toggleLike_of_not_mem (l : List String) (u : String) (h : u ∉ l) :
    (toggleLike l u).count u = 1 := by
  have hc : ¬ (l.contains u = true) := by simp [h]
  simp only [toggleLike]
  rw [if_neg hc]
  exact count_dedupKeepFirst_of_mem _ u (by simp)

theorem count_toggleLike_of_mem (l : List String) (u : String) (h : u ∈ l) :
    (toggleLike l u).count u = 0 := by
  have hc : l.contains u = true := by simpa using h
  simp only [toggleLike]
  rw [if_pos hc]
  exact count_filter_ne_self l u

theorem count_toggleLike_le_one (l : List String) (u : String) :
    (toggleLike l u).count u ≤ 1 := by
  by_cases h : u ∈ l
  · rw [count_toggleLike_of_mem l u h]
    exact Nat.zero_le 1
  · rw [count_toggleLike_of_not_mem l u h]

theorem count_toggleLike_twice_of_not_mem (l : List String) (u : String)
    (h : u ∉ l) : (toggleLike (toggleLike l u) u).count u = 0 := by
  have h1 : (toggleLike l u).count u = 1 := count_toggleLike_of_not_mem l u h
  have hmem : u ∈ toggleLike l u := List.count_pos_iff.mp (by omega)
  exact count_toggleLike_of_mem _ u hmem

/-- C8: processing `likeUnlikePost` twice in succession by the same user on
the same (unbanned) post broadcasts, each time, a like set re-read from the
store; the user occurs at most once in each broadcast like set, and when the
user had not liked the post before, the first toggle adds them exactly once
and the second removes them. -/
theorem C8_like_toggle_idempotent (store : Store) (postId userId : String)
    (now : Nat) (p : PostDoc) (hp : store.findPost postId = some p)
    (hb : p.isBanned = false) :
    ∃ l₁ l₂,
      (likeUnlikePostCtrl store (some userId) postId now).2.2.map
        (fun e => e.payload.likesField) = [some l₁] ∧
      (likeUnlikePostCtrl (likeUnlikePostCtrl store (some userId) postId now).1
        (some userId) postId now).2.2.map
          (fun e => e.payload.likesField) = [some l₂] ∧
      l₁ = toggleLike p.likes userId ∧
      l₂ = toggleLike (toggleLike p.likes userId) userId ∧
      l₁.count userId ≤ 1 ∧
      l₂.count userId ≤ 1 ∧
      (userId ∉ p.likes → l₁.count userId = 1 ∧ l₂.count userId = 0) := by
  obtain ⟨pid0, pb0, tx0, lk0, cm0, ib0, bb0, ba0⟩ := p
  have hb' : ib0 = false := hb
  subst hb'
  have hfind1 : (store.updatePost
      ⟨pid0, pb0, tx0, toggleLike lk0 userId, cm0, false, bb0, ba0⟩).findPost
        postId =
      some ⟨pid0, pb0, tx0, toggleLike lk0 userId, cm0, false, bb0, ba0⟩ :=
    Store.findPost_updatePost store postId _ _ hp rfl
  have hfind2 : ((store.updatePost
      ⟨pid0, pb0, tx0, toggleLike lk0 userId, cm0, false, bb0, ba0⟩).updatePost
        ⟨pid0, pb0, tx0, toggleLike (toggleLike lk0 userId) userId, cm0, false,
          bb0, ba0⟩).findPost postId =
      some ⟨pid0, pb0, tx0, toggleLike (toggleLike lk0 userId) userId, cm0,
        false, bb0, ba0⟩ :=
    Store.findPost_updatePost _ postId
      ⟨pid0, pb0, tx0, toggleLike lk0 userId, cm0, false, bb0, ba0⟩ _ hfind1 rfl
  refine ⟨toggleLike lk0 userId,
    toggleLike (toggleLike lk0 userId) userId, ?_, ?_, rfl, rfl,
    count_toggleLike_le_one _ _, count_toggleLike_le_one _ _, ?_⟩
  · simp [likeUnlikePostCtrl, hp, hfind1, Payload.likesField, populatePost]
  · have hst : (likeUnlikePostCtrl store (some userId) postId now).1 =
        store.updatePost
          ⟨pid0, pb0, tx0, toggleLike lk0 userId, cm0, false, bb0, ba0⟩ := by
      simp [likeUnlikePostCtrl, hp, hfind1]
    rw [hst]
    simp [likeUnlikePostCtrl, hfind1, hfind2, Payload.likesField, populatePost]
  · intro h
    exact ⟨count_toggleLike_of_not_mem _ _ h,
      count_toggleLike_twice_of_not_mem _ _ h⟩

/-- C8 witness: on a concrete post with an empty like array, two toggles by
`u9` broadcast like sets `[u9]` then `[]`, with no duplicate entries. -/
theorem C8_like_toggle_check :
    ∃ l₁ l₂,
      (likeUnlikePostCtrl
        ⟨[⟨"p1", "uA", "t", [], [], false, none, none⟩], []⟩
        (some "u9") "p1" 0).2.2.map (fun e => e.payload.likesField) = [some l₁] ∧
      (likeUnlikePostCtrl
        (likeUnlikePostCtrl
          ⟨[⟨"p1", "uA", "t", [], [], false, none, none⟩], []⟩
          (some "u9") "p1" 0).1
        (some "u9") "p1" 0).2.2.map (fun e => e.payload.likesField) = [some l₂] ∧
      l₁ = toggleLike [] "u9" ∧
      l₂ = toggleLike (toggleLike [] "u9") "u9" ∧
      l₁.count "u9" ≤ 1 ∧
      l₂.count "u9" ≤ 1 ∧
      ("u9" ∉ ([] : List String) → l₁.count "u9" = 1 ∧ l₂.count "u9" = 0) :=
  C8_like_toggle_idempotent
    ⟨[⟨"p1", "uA", "t", [], [], false, none, none⟩], []⟩ "p1" "u9" 0
    ⟨"p1", "uA", "t", [], [], false, none, none⟩ (by decide) rfl

/-- C10: when a ban or unban request finds the post but the author reference
does not resolve to a user document after the update, the flag change is still
persisted and the handler answers HTTP 200 with the caveat message, yet emits
no `postBanned`/`postUnbanned` broadcast. -/
theorem C10_ban_unresolved_author_skips_broadcast (store : Store) (u : UserDoc)
    (id : String) (now : Nat) (p : PostDoc) (ha : u.isAdmin = true)
    (hp : store.findPost id = some p)
    (hmiss : store.findUser p.postedBy = none) :
    ((banPost store (some u) id now).2.1.status = 200 ∧
      (banPost store (some u) id now).2.1.message =
        "Post banned successfully, but postedBy is invalid" ∧
      (banPost store (some u) id now).2.2 = [] ∧
      (((banPost store (some u) id now).1.findPost id).map PostDoc.isBanned) =
        some true) ∧
    ((unbanPost store (some u) id).2.1.status = 200 ∧
      (unbanPost store (some u) id).2.1.message =
        "Post unbanned successfully, but postedBy is invalid" ∧
      (unbanPost store (some u) id).2.2 = [] ∧
      (((unbanPost store (some u) id).1.findPost id).map PostDoc.isBanned) =
        some false) := by
  have hfb : (store.updatePost
      { p with isBanned := true, bannedBy := some u.uid,
               bannedAt := some now }).findPost id =
      some { p with isBanned := true, bannedBy := some u.uid,
                    bannedAt := some now } :=
    Store.findPost_updatePost store id p _ hp rfl
  have hfu : (store.updatePost
      { p with isBanned := false, bannedBy := none,
               bannedAt := none }).findPost id =
      some { p with isBanned := false, bannedBy := none, bannedAt := none } :=
    Store.findPost_updatePost store id p _ hp rfl
  constructor
  · simp [banPost, ha, hp, hfb, populatePost, populateUser,
      Store.findUser_updatePost, hmiss]
  · simp [unbanPost, ha, hp, hfu, populatePost, populateUser,
      Store.findUser_updatePost, hmiss]

/-- C10 witness: a concrete post whose `postedBy` points at no user document
is banned and unbanned with a 200 caveat response, a persisted flag change
and no broadcast. -/
theorem C10_ban_caveat_check :
    ((banPost ⟨[⟨"p1", "ghost", "t", [], [], false, none, none⟩], [⟨"adm", "a", "p", [], true⟩]⟩
        (some ⟨"adm", "a", "p", [], true⟩) "p1" 9).2.2 = [] ∧
      ((banPost ⟨[⟨"p1", "ghost", "t", [], [], false, none, none⟩], [⟨"adm", "a", "p", [], true⟩]⟩
        (some ⟨"adm", "a", "p", [], true⟩) "p1" 9).1.findPost "p1").map
          PostDoc.isBanned = some true) ∧
    ((unbanPost ⟨[⟨"p1", "ghost", "t", [], [], false, none, none⟩], [⟨"adm", "a", "p", [], true⟩]⟩
        (some ⟨"adm", "a", "p", [], true⟩) "p1").2.2 = [] ∧
      ((unbanPost ⟨[⟨"p1", "ghost", "t", [], [], false, none, none⟩], [⟨"adm", "a", "p", [], true⟩]⟩
        (some ⟨"adm", "a", "p", [], true⟩) "p1").1.findPost "p1").map
          PostDoc.isBanned = some false) :=
  ⟨⟨(C10_ban_unresolved_author_skips_broadcast
      ⟨[⟨"p1", "ghost", "t", [], [], false, none, none⟩], [⟨"adm", "a", "p", [], true⟩]⟩
      ⟨"adm", "a", "p", [], true⟩ "p1" 9
      ⟨"p1", "ghost", "t", [], [], false, none, none⟩ rfl (by decide)
      (by decide)).1.2.2.1,
    (C10_ban_unresolved_author_skips_broadcast
      ⟨[⟨"p1", "ghost", "t", [], [], false, none, none⟩], [⟨"adm", "a", "p", [], true⟩]⟩
      ⟨"adm", "a", "p", [], true⟩ "p1" 9
      ⟨"p1", "ghost", "t", [], [], false, none, none⟩ rfl (by decide)
      (by decide)).1.2.2.2⟩,
   ⟨(C10_ban_unresolved_author_skips_broadcast
      ⟨[⟨"p1", "ghost", "t", [], [], false, none, none⟩], [⟨"adm", "a", "p", [], true⟩]⟩
      ⟨"adm", "a", "p", [], true⟩ "p1" 9
      ⟨"p1", "ghost", "t", [], [], false, none, none⟩ rfl (by decide)
      (by decide)).2.2.2.1,
    (C10_ban_unresolved_author_skips_broadcast
      ⟨[⟨"p1", "ghost", "t", [], [], false, none, none⟩], [⟨"adm", "a", "p", [], true⟩]⟩
      ⟨"adm", "a", "p", [], true⟩ "p1" 9
      ⟨"p1", "ghost", "t", [], [], false, none, none⟩ rfl (by decide)
      (by decide)).2.2.2.2⟩⟩

end NRBlog
